import Mathlib

/-!
Verification of the inference and decision layer of the e-commerce churn
prediction application (`app_streamlit_COMPLETE.py`): the feature aligner
(`preprocess_input`), risk-tier mapping (`get_risk_level`), recommendation
rule engine (`get_recommendations`), the artifact loader (`load_model`), and
the classifier invocation in `main`.

Numeric values are embedded as rationals (`ℚ`); a named feature input
(a Python dict) is an association list looked up by first match; fallible
steps (dict key access, pandas column selection, pickle loading,
scaler/model invocation) return `Option` / `Except`.
-/

/-- A Python dict of named numeric features, as an association list. -/
def FeatureMap : Type := List (String × ℚ)

/-- Dict lookup: the value stored under key `k`, if present. -/
def lookupKey : List (String × ℚ) → String → Option ℚ
  | [], _ => none
  | (k2, v) :: rest, k => if k2 = k then some v else lookupKey rest k

/-- The value/color/emoji record returned by `get_risk_level`. -/
structure RiskInfo where
  level : String
  color : String
  emoji : String
deriving DecidableEq, Repr

/-- `get_risk_level` branch for `churn_prob >= 0.7` ("매우 높음" = Critical). -/
def criticalInfo : RiskInfo := ⟨"매우 높음", "#e74c3c", "🔴"⟩

/-- `get_risk_level` branch for `0.5 <= churn_prob < 0.7` ("높음" = High). -/
def highInfo : RiskInfo := ⟨"높음", "#f39c12", "🟠"⟩

/-- `get_risk_level` branch for `0.3 <= churn_prob < 0.5` ("보통" = Moderate). -/
def moderateInfo : RiskInfo := ⟨"보통", "#3498db", "🟡"⟩

/-- `get_risk_level` branch for `churn_prob < 0.3` ("낮음" = Low). -/
def lowInfo : RiskInfo := ⟨"낮음", "#2ecc71", "🟢"⟩

/-- Embedding of `get_risk_level` (source lines 178-187): an if/elif/elif/else
chain over the churn probability with thresholds 0.7, 0.5, 0.3. -/
def get_risk_level (churn_prob : ℚ) : RiskInfo :=
  if churn_prob ≥ 7/10 then criticalInfo
  else if churn_prob ≥ 1/2 then highInfo
  else if churn_prob ≥ 3/10 then moderateInfo
  else lowInfo

/-- C1: the risk-tier mapping is the closed step function with inclusive lower
boundaries evaluated in descending order: `p ≥ 0.70` yields Critical,
`0.50 ≤ p < 0.70` yields High, `0.30 ≤ p < 0.50` yields Moderate, and
`p < 0.30` yields Low; in particular the boundary points 0.70, 0.50 and 0.30
map to Critical, High and Moderate respectively. -/
theorem risk_tier_step_function (p : ℚ) :
    (p ≥ 7/10 → get_risk_level p = criticalInfo)
    ∧ (1/2 ≤ p ∧ p < 7/10 → get_risk_level p = highInfo)
    ∧ (3/10 ≤ p ∧ p < 1/2 → get_risk_level p = moderateInfo)
    ∧ (p < 3/10 → get_risk_level p = lowInfo)
    ∧ get_risk_level (7/10) = criticalInfo
    ∧ get_risk_level (1/2) = highInfo
    ∧ get_risk_level (3/10) = moderateInfo := by
  unfold get_risk_level
  refine ⟨?_, ?_, ?_, ?_, ?_, ?_, ?_⟩
  · intro h; simp [h]
  · rintro ⟨h1, h2⟩
    rw [if_neg (by linarith), if_pos (by linarith)]
  · rintro ⟨h1, h2⟩
    rw [if_neg (by linarith), if_neg (by linarith), if_pos (by linarith)]
  · intro h
    rw [if_neg (by linarith), if_neg (by linarith), if_neg (by linarith)]
  · norm_num
  · norm_num
  · norm_num

/-- Witness for C1 at the three boundary points and one point of each open
band: 0.70 is Critical, 0.69 is High, 0.50 is High, 0.49 is Moderate,
0.30 is Moderate, 0.29 is Low. -/
theorem risk_tier_step_function_witness :
    get_risk_level (70/100) = criticalInfo
    ∧ get_risk_level (69/100) = highInfo
    ∧ get_risk_level (50/100) = highInfo
    ∧ get_risk_level (49/100) = moderateInfo
    ∧ get_risk_level (30/100) = moderateInfo
    ∧ get_risk_level (29/100) = lowInfo :=
  ⟨(risk_tier_step_function (70/100)).1 (by norm_num),
   ((risk_tier_step_function (69/100)).2.1 (by norm_num)),
   ((risk_tier_step_function (50/100)).2.1 (by norm_num)),
   ((risk_tier_step_function (49/100)).2.2.1 (by norm_num)),
   ((risk_tier_step_function (30/100)).2.2.1 (by norm_num)),
   ((risk_tier_step_function (29/100)).2.2.2.1 (by norm_num))⟩

/-- C10: the risk-tier mapping is total over all rational inputs, not just
[0,1]: every churn probability is assigned exactly one of the four tiers
(the four tier records are pairwise distinct, and every input hits one of
them); any value `≥ 0.7` yields Critical even above 1, and any value
`< 0.3` yields Low even when negative. -/
theorem risk_tier_total (p : ℚ) :
    (get_risk_level p = criticalInfo ∨ get_risk_level p = highInfo
      ∨ get_risk_level p = moderateInfo ∨ get_risk_level p = lowInfo)
    ∧ (p ≥ 7/10 → get_risk_level p = criticalInfo)
    ∧ (p < 3/10 → get_risk_level p = lowInfo)
    ∧ criticalInfo ≠ highInfo ∧ criticalInfo ≠ moderateInfo
    ∧ criticalInfo ≠ lowInfo ∧ highInfo ≠ moderateInfo
    ∧ highInfo ≠ lowInfo ∧ moderateInfo ≠ lowInfo := by
  refine ⟨?_, ?_, ?_, by decide, by decide, by decide, by decide, by decide, by decide⟩
  · unfold get_risk_level
    split_ifs <;> simp
  · intro h; simp [get_risk_level, h]
  · intro h
    unfold get_risk_level
    rw [if_neg (by linarith), if_neg (by linarith), if_neg (by linarith)]

/-- Witness for C10 at out-of-range inputs: 2.5 (above 1) is Critical and
-1 (negative) is Low. -/
theorem risk_tier_total_witness :
    get_risk_level (5/2) = criticalInfo ∧ get_risk_level (-1) = lowInfo :=
  ⟨(risk_tier_total (5/2)).2.1 (by norm_num),
   (risk_tier_total (-1)).2.2.1 (by norm_num)⟩

/-- Looking up in an appended association list: the left list wins when it
holds the key, otherwise the right list is consulted. -/
theorem lookupKey_append (a b : List (String × ℚ)) (k : String) :
    lookupKey (a ++ b) k =
      match lookupKey a k with
      | some v => some v
      | none => lookupKey b k := by
  induction a with
  | nil => simp [lookupKey]
  | cons hd tl ih =>
      obtain ⟨k2, v⟩ := hd
      by_cases h : k2 = k <;> simp [lookupKey, h, ih]

/-- Embedding of the zero-fill loop of `preprocess_input` (source lines
167-169): for each expected column, append a `(col, 0)` entry when the
input frame lacks it. Appending matches pandas adding a new column. -/
def fill_missing (df : List (String × ℚ)) (feature_names : List String) :
    List (String × ℚ) :=
  feature_names.foldl
    (fun acc col => if lookupKey acc col = none then acc ++ [(col, 0)] else acc)
    df

/-- Embedding of the column-reorder step `df = df[feature_names]` (source
line 171): select each named column in order; pandas raises a `KeyError`
(here `none`) when any is missing. -/
def select_columns (df : List (String × ℚ)) : List String → Option (List ℚ)
  | [] => some []
  | n :: rest =>
      match lookupKey df n, select_columns df rest with
      | some v, some vs => some (v :: vs)
      | _, _ => none

/-- The alignment portion of `preprocess_input` (source lines 161-171):
zero-fill the missing expected columns, then reorder to the expected order. -/
def align (raw : List (String × ℚ)) (feature_names : List String) :
    Option (List ℚ) :=
  select_columns (fill_missing raw feature_names) feature_names

/-- Zero-filling never disturbs a key that is already present. -/
theorem lookupKey_fill_missing_of_some (feature_names : List String)
    (df : List (String × ℚ)) (k : String) (v : ℚ)
    (h : lookupKey df k = some v) :
    lookupKey (fill_missing df feature_names) k = some v := by
  induction feature_names generalizing df with
  | nil => simpa [fill_missing] using h
  | cons c rest ih =>
      show lookupKey (fill_missing
        (if lookupKey df c = none then df ++ [(c, 0)] else df) rest) k = some v
      split_ifs with hc
      · exact ih _ (by rw [lookupKey_append, h])
      · exact ih _ h

/-- After zero-filling, every expected column is present, holding the raw
value when the raw frame had it and `0` otherwise. -/
theorem lookupKey_fill_missing (feature_names : List String)
    (df : List (String × ℚ)) (k : String) (hk : k ∈ feature_names) :
    lookupKey (fill_missing df feature_names) k
      = some ((lookupKey df k).getD 0) := by
  induction feature_names generalizing df with
  | nil => cases hk
  | cons c rest ih =>
      show lookupKey (fill_missing
        (if lookupKey df c = none then df ++ [(c, 0)] else df) rest) k
        = some ((lookupKey df k).getD 0)
      by_cases hkc : k = c
      · subst hkc
        split_ifs with hc
        · rw [lookupKey_fill_missing_of_some rest _ k 0
            (by rw [lookupKey_append, hc]; simp [lookupKey])]
          simp [hc]
        · obtain ⟨v, hv⟩ := Option.ne_none_iff_exists'.mp hc
          rw [lookupKey_fill_missing_of_some rest _ k v hv, hv]
          rfl
      · have hkr : k ∈ rest := by
          rcases List.mem_cons.mp hk with h | h
          · exact absurd h hkc
          · exact h
        split_ifs with hc
        · rw [ih _ hkr, lookupKey_append]
          have hone : lookupKey [(c, 0)] k = none := by
            have hck : ¬c = k := fun h => hkc h.symm
            simp [lookupKey, hck]
          cases hdf : lookupKey df k <;> simp [hdf, hone]
        · exact ih _ hkr

/-- When every requested column resolves, `select_columns` returns exactly
the list of resolved values. -/
theorem select_columns_eq_map (df : List (String × ℚ)) (names : List String)
    (g : String → ℚ) (h : ∀ n ∈ names, lookupKey df n = some (g n)) :
    select_columns df names = some (names.map g) := by
  induction names with
  | nil => simp [select_columns]
  | cons n rest ih =>
      have hn := h n (List.mem_cons_self n rest)
      have hrest := ih (fun m hm => h m (List.mem_cons_of_mem n hm))
      simp [select_columns, hn, hrest]

/-- Closed form of the aligner, shared by the later claims: it always
succeeds and returns the raw lookup of each expected name, defaulting to 0. -/
theorem align_eq_some (raw : List (String × ℚ)) (feature_names : List String) :
    align raw feature_names
      = some (feature_names.map (fun n => (lookupKey raw n).getD 0)) := by
  unfold align
  exact select_columns_eq_map _ _ _
    (fun n hn => lookupKey_fill_missing feature_names raw n hn)

/-- C2: for every raw feature mapping and expected order of length N, the
aligner yields a dense vector of length exactly N whose i-th entry is the
raw value of the i-th expected name when present and 0 otherwise; raw keys
outside the expected order have no effect (any mapping agreeing with `raw`
on the expected names aligns identically), and alignment never fails. -/
theorem align_ordering_invariant (raw raw2 : List (String × ℚ))
    (feature_names : List String)
    (hagree : ∀ n ∈ feature_names, lookupKey raw n = lookupKey raw2 n) :
    (∃ v, align raw feature_names = some v
        ∧ ∃ hlen : v.length = feature_names.length,
            ∀ i : Fin feature_names.length,
              v.get (Fin.cast hlen.symm i)
                = (lookupKey raw (feature_names.get i)).getD 0)
    ∧ align raw feature_names = align raw2 feature_names := by
  constructor
  · refine ⟨feature_names.map (fun n => (lookupKey raw n).getD 0),
      align_eq_some raw feature_names, by simp, ?_⟩
    intro i
    simp [List.get_eq_getElem, List.getElem_map]
  · rw [align_eq_some, align_eq_some]
    congr 1
    exact List.map_congr_left (fun n hn => by rw [hagree n hn])

/-- Witness for C2: a raw mapping missing `Credit_Balance` and carrying an
extra key aligns against a three-name order to the padded vector, and
dropping the extra key gives the same alignment. -/
theorem align_ordering_invariant_witness :
    (∃ v, align [("Age", 35), ("Extra_Key", 9), ("Customer_Service_Calls", 3)]
            ["Customer_Service_Calls", "Age", "Credit_Balance"] = some v
        ∧ v.length = 3)
    ∧ align [("Age", 35), ("Extra_Key", 9), ("Customer_Service_Calls", 3)]
            ["Customer_Service_Calls", "Age", "Credit_Balance"]
        = align [("Age", 35), ("Customer_Service_Calls", 3)]
            ["Customer_Service_Calls", "Age", "Credit_Balance"] := by
  have h := align_ordering_invariant
    [("Age", 35), ("Extra_Key", 9), ("Customer_Service_Calls", 3)]
    [("Age", 35), ("Customer_Service_Calls", 3)]
    ["Customer_Service_Calls", "Age", "Credit_Balance"]
    (by decide)
  obtain ⟨⟨v, hv, hlen, _⟩, heq⟩ := h
  exact ⟨⟨v, hv, by rw [hlen]; rfl⟩, heq⟩

/-- Critical-tier base message 1: urgent intervention (source line 195). -/
def criticalMsg1 : String := "🚨 **즉시 조치 필요**: VIP 할인 쿠폰 제공"

/-- Critical-tier base message 2: direct contact (source line 196). -/
def criticalMsg2 : String := "📞 **개인 상담**: 고객 서비스 팀 즉시 연락"

/-- High-tier base message 1: promotion (source line 198). -/
def highMsg1 : String := "🎁 **특별 프로모션**: 맞춤형 할인 제안"

/-- High-tier base message 2: re-engagement campaign (source line 199). -/
def highMsg2 : String := "📧 **재참여 캠페인**: 이메일 마케팅 강화"

/-- Moderate-tier base message 1: monitoring (source line 201). -/
def moderateMsg1 : String := "👀 **모니터링**: 정기적인 활동 추적"

/-- Moderate-tier base message 2: loyalty program (source line 202). -/
def moderateMsg2 : String := "💝 **로열티 프로그램**: 포인트 적립 혜택"

/-- Low-tier base message 1: retention maintenance (source line 204). -/
def lowMsg1 : String := "✅ **유지 관리**: 현재 만족도 유지"

/-- Low-tier base message 2: referral request (source line 205). -/
def lowMsg2 : String := "🌟 **추천 요청**: 신규 고객 추천 유도"

/-- Supplementary message for `Customer_Service_Calls > 5`: service-quality
escalation (source line 209). -/
def serviceMsg : String := "🆘 **서비스 개선**: 고객 불만 사항 해결"

/-- Supplementary message for `Cart_Abandonment_Rate > 60`: checkout-flow
improvement (source line 212). -/
def cartMsg : String := "🛒 **결제 프로세스 개선**: 장바구니 이탈 방지"

/-- Supplementary message for `Days_Since_Last_Purchase > 60`: win-back
(source line 215). -/
def winbackMsg : String := "🔔 **재구매 유도**: 신제품 안내 및 할인"

/-- All eight tier-base messages, across the four tiers. -/
def allBaseMessages : List String :=
  [criticalMsg1, criticalMsg2, highMsg1, highMsg2,
   moderateMsg1, moderateMsg2, lowMsg1, lowMsg2]

/-- Embedding of `get_recommendations` (source lines 190-217): start from an
empty list, append the two base messages of the tier selected by the same
if/elif chain as `get_risk_level`, then append each supplementary message
whose strict-inequality guard over its dict entry holds; a dict access of a
missing key raises `KeyError`. -/
def get_recommendations (churn_prob : ℚ) (input_data : List (String × ℚ)) :
    Except String (List String) :=
  let recommendations : List String := []
  let recommendations :=
    if churn_prob ≥ 7/10 then recommendations ++ [criticalMsg1, criticalMsg2]
    else if churn_prob ≥ 1/2 then recommendations ++ [highMsg1, highMsg2]
    else if churn_prob ≥ 3/10 then recommendations ++ [moderateMsg1, moderateMsg2]
    else recommendations ++ [lowMsg1, lowMsg2]
  match lookupKey input_data "Customer_Service_Calls" with
  | none => .error "KeyError: Customer_Service_Calls"
  | some csc =>
    let recommendations :=
      if csc > 5 then recommendations ++ [serviceMsg] else recommendations
    match lookupKey input_data "Cart_Abandonment_Rate" with
    | none => .error "KeyError: Cart_Abandonment_Rate"
    | some car =>
      let recommendations :=
        if car > 60 then recommendations ++ [cartMsg] else recommendations
      match lookupKey input_data "Days_Since_Last_Purchase" with
      | none => .error "KeyError: Days_Since_Last_Purchase"
      | some days =>
        let recommendations :=
          if days > 60 then recommendations ++ [winbackMsg] else recommendations
        .ok recommendations

/-- The two base messages the tier chain of `get_recommendations` emits for a
churn probability. -/
def base_messages (churn_prob : ℚ) : List String :=
  if churn_prob ≥ 7/10 then [criticalMsg1, criticalMsg2]
  else if churn_prob ≥ 1/2 then [highMsg1, highMsg2]
  else if churn_prob ≥ 3/10 then [moderateMsg1, moderateMsg2]
  else [lowMsg1, lowMsg2]

/-- Closed form of `get_recommendations` when the three checked keys are
present: the tier-base pair followed by the guarded supplementary messages
in their fixed order. Shared by the recommendation-engine claims. -/
theorem get_recommendations_ok (p : ℚ) (m : List (String × ℚ))
    (csc car days : ℚ)
    (h1 : lookupKey m "Customer_Service_Calls" = some csc)
    (h2 : lookupKey m "Cart_Abandonment_Rate" = some car)
    (h3 : lookupKey m "Days_Since_Last_Purchase" = some days) :
    get_recommendations p m
      = .ok (base_messages p
          ++ (if csc > 5 then [serviceMsg] else [])
          ++ (if car > 60 then [cartMsg] else [])
          ++ (if days > 60 then [winbackMsg] else [])) := by
  unfold get_recommendations base_messages
  rw [h1, h2, h3]
  simp only [List.nil_append]
  split_ifs <;> simp

/-- The 15-feature input dict built in `main` (source lines 348-364) at the
form's default values. -/
def defaultInput : List (String × ℚ) :=
  [("Customer_Service_Calls", 3), ("Lifetime_Value", 2000),
   ("Cart_Abandonment_Rate", 50), ("Age", 35), ("Total_Purchases", 15),
   ("Discount_Usage_Rate", 40), ("Days_Since_Last_Purchase", 30),
   ("Average_Order_Value", 120), ("Email_Open_Rate", 25),
   ("Session_Duration_Avg", 30), ("Pages_Per_Session", 8),
   ("Mobile_App_Usage", 30), ("Returns_Rate", 5), ("Login_Frequency", 15),
   ("Credit_Balance", 500)]

/-- The Scenario B input: the default dict with `Customer_Service_Calls = 7`,
`Cart_Abandonment_Rate = 65`, `Days_Since_Last_Purchase = 90`. -/
def scenarioBInput : List (String × ℚ) :=
  [("Customer_Service_Calls", 7), ("Lifetime_Value", 2000),
   ("Cart_Abandonment_Rate", 65), ("Age", 35), ("Total_Purchases", 15),
   ("Discount_Usage_Rate", 40), ("Days_Since_Last_Purchase", 90),
   ("Average_Order_Value", 120), ("Email_Open_Rate", 25),
   ("Session_Duration_Avg", 30), ("Pages_Per_Session", 8),
   ("Mobile_App_Usage", 30), ("Returns_Rate", 5), ("Login_Frequency", 15),
   ("Credit_Balance", 500)]

/-- C3: for every churn probability and every input dict holding the three
checked keys, the recommendation output starts with the two fixed tier-base
messages of the tier, the tier-base pair has length two, and base messages
occur exactly twice in the whole output, regardless of feature values. -/
theorem recommend_base_invariant (p : ℚ) (m : List (String × ℚ))
    (csc car days : ℚ)
    (h1 : lookupKey m "Customer_Service_Calls" = some csc)
    (h2 : lookupKey m "Cart_Abandonment_Rate" = some car)
    (h3 : lookupKey m "Days_Since_Last_Purchase" = some days) :
    ∃ recs, get_recommendations p m = .ok recs
      ∧ recs.take 2 = base_messages p
      ∧ (base_messages p).length = 2
      ∧ recs.countP (fun s => decide (s ∈ allBaseMessages)) = 2 := by
  refine ⟨_, get_recommendations_ok p m csc car days h1 h2 h3, ?_⟩
  unfold base_messages
  split_ifs <;> exact ⟨by decide, by decide, by decide⟩

/-- Witness for C3 at churn probability 0.42 (Moderate) on the default
input dict. -/
theorem recommend_base_invariant_witness :
    ∃ recs, get_recommendations (42/100) defaultInput = .ok recs
      ∧ recs.take 2 = base_messages (42/100)
      ∧ (base_messages (42/100)).length = 2
      ∧ recs.countP (fun s => decide (s ∈ allBaseMessages)) = 2 :=
  recommend_base_invariant (42/100) defaultInput 3 50 30
    (by decide) (by decide) (by decide)

/-- C4: the supplementary rules are evaluated after the base messages in the
fixed order service-escalation, checkout-improvement, win-back, each
appending its message exactly when its strict-inequality guard holds; and
the Scenario B input with churn probability 0.78 yields the two Critical
base messages followed by all three supplementary messages in that order. -/
theorem recommend_supplementary_rules (p : ℚ) (m : List (String × ℚ))
    (csc car days : ℚ)
    (h1 : lookupKey m "Customer_Service_Calls" = some csc)
    (h2 : lookupKey m "Cart_Abandonment_Rate" = some car)
    (h3 : lookupKey m "Days_Since_Last_Purchase" = some days) :
    get_recommendations p m
      = .ok (base_messages p
          ++ (if csc > 5 then [serviceMsg] else [])
          ++ (if car > 60 then [cartMsg] else [])
          ++ (if days > 60 then [winbackMsg] else []))
    ∧ get_recommendations (78/100) scenarioBInput
        = .ok [criticalMsg1, criticalMsg2, serviceMsg, cartMsg, winbackMsg] := by
  refine ⟨get_recommendations_ok p m csc car days h1 h2 h3, ?_⟩
  rw [get_recommendations_ok (78/100) scenarioBInput 7 65 90
    (by decide) (by decide) (by decide)]
  norm_num [base_messages]

/-- Witness for C4: the Scenario B evaluation itself, extracted at the
default input for the universally quantified part. -/
theorem recommend_supplementary_rules_witness :
    get_recommendations (42/100) defaultInput
      = .ok (base_messages (42/100)
          ++ (if (3:ℚ) > 5 then [serviceMsg] else [])
          ++ (if (50:ℚ) > 60 then [cartMsg] else [])
          ++ (if (30:ℚ) > 60 then [winbackMsg] else []))
    ∧ get_recommendations (78/100) scenarioBInput
        = .ok [criticalMsg1, criticalMsg2, serviceMsg, cartMsg, winbackMsg] :=
  recommend_supplementary_rules (42/100) defaultInput 3 50 30
    (by decide) (by decide) (by decide)

/-- C7: the recommendation engine is deterministic and free of external
state: two calls with identical churn probability and extensionally
identical feature dicts return identical lists in identical order. -/
theorem recommend_deterministic (p : ℚ) (m1 m2 : List (String × ℚ))
    (h : ∀ k, lookupKey m1 k = lookupKey m2 k) :
    get_recommendations p m1 = get_recommendations p m2 := by
  unfold get_recommendations
  rw [h "Customer_Service_Calls", h "Cart_Abandonment_Rate",
    h "Days_Since_Last_Purchase"]

/-- Witness for C7: two calls on the same concrete probability and dict
coincide. -/
theorem recommend_deterministic_witness :
    get_recommendations (78/100) scenarioBInput
      = get_recommendations (78/100) scenarioBInput :=
  recommend_deterministic (78/100) scenarioBInput scenarioBInput
    (fun _ => rfl)

/-- C8: for every churn probability and input dict holding the three checked
keys, the recommendation list has between 2 and 5 elements, its first two
elements are the tier-base messages, and everything after them is one of
the three supplementary messages. -/
theorem recommend_length_bounds (p : ℚ) (m : List (String × ℚ))
    (csc car days : ℚ)
    (h1 : lookupKey m "Customer_Service_Calls" = some csc)
    (h2 : lookupKey m "Cart_Abandonment_Rate" = some car)
    (h3 : lookupKey m "Days_Since_Last_Purchase" = some days) :
    ∃ recs, get_recommendations p m = .ok recs
      ∧ 2 ≤ recs.length ∧ recs.length ≤ 5
      ∧ recs.take 2 = base_messages p
      ∧ ∀ s ∈ recs.drop 2, s ∈ [serviceMsg, cartMsg, winbackMsg] := by
  refine ⟨_, get_recommendations_ok p m csc car days h1 h2 h3, ?_⟩
  unfold base_messages
  split_ifs <;> exact ⟨by decide, by decide, by decide, by decide⟩

/-- Witness for C8 on the Scenario B input at churn probability 0.78: all
five messages appear. -/
theorem recommend_length_bounds_witness :
    ∃ recs, get_recommendations (78/100) scenarioBInput = .ok recs
      ∧ 2 ≤ recs.length ∧ recs.length ≤ 5
      ∧ recs.take 2 = base_messages (78/100)
      ∧ ∀ s ∈ recs.drop 2, s ∈ [serviceMsg, cartMsg, winbackMsg] :=
  recommend_length_bounds (78/100) scenarioBInput 7 65 90
    (by decide) (by decide) (by decide)

/-- C9: the recommendation output depends only on the churn probability and
the three checked features: two input dicts agreeing on
`Customer_Service_Calls`, `Cart_Abandonment_Rate` and
`Days_Since_Last_Purchase` produce equal outputs at every churn
probability, whatever the other features hold. -/
theorem recommend_noninterference (p : ℚ) (m1 m2 : List (String × ℚ))
    (h1 : lookupKey m1 "Customer_Service_Calls"
        = lookupKey m2 "Customer_Service_Calls")
    (h2 : lookupKey m1 "Cart_Abandonment_Rate"
        = lookupKey m2 "Cart_Abandonment_Rate")
    (h3 : lookupKey m1 "Days_Since_Last_Purchase"
        = lookupKey m2 "Days_Since_Last_Purchase") :
    get_recommendations p m1 = get_recommendations p m2 := by
  unfold get_recommendations
  rw [h1, h2, h3]

/-- Witness for C9: the default dict and a dict with very different values
in the eleven unchecked features (and an extra key) recommend identically. -/
theorem recommend_noninterference_witness :
    get_recommendations (78/100) defaultInput
      = get_recommendations (78/100)
          [("Customer_Service_Calls", 3), ("Lifetime_Value", 1),
           ("Cart_Abandonment_Rate", 50), ("Age", 99),
           ("Days_Since_Last_Purchase", 30), ("Extra_Key", 123)] :=
  recommend_noninterference (78/100) defaultInput
    [("Customer_Service_Calls", 3), ("Lifetime_Value", 1),
     ("Cart_Abandonment_Rate", 50), ("Age", 99),
     ("Days_Since_Last_Purchase", 30), ("Extra_Key", 123)]
    (by decide) (by decide) (by decide)

/-- The deserialized model package (the pickled dict): the three fields the
inference path reads, each possibly absent since the pickle is an arbitrary
dict. Metadata fields are not modelled. -/
structure ModelPackage where
  feature_names : Option (List String)
  scaler : Option (List ℚ → Except String (List ℚ))
  model : Option (List ℚ → Except String (ℤ × ℚ × ℚ))

/-- The two ways `load_model` stops the app (source lines 143-149 and
156-158): no model file at any known path, or `pickle.load` raising. -/
inductive LoadError where
  | fileNotFound : LoadError
  | loadException : String → LoadError
deriving DecidableEq, Repr

/-- The candidate model file paths of `load_model` (source lines 130-135). -/
def possible_paths : List String :=
  ["churn_model_final.pkl", "models/churn_model_final.pkl",
   "churn_model.pkl", "models/churn_model.pkl"]

/-- Embedding of `load_model` (source lines 126-158): pick the first
existing path, deserialize it, and return whatever package came out; the
filesystem and the unpickler are passed in as capabilities. -/
def load_model (exists_fs : String → Bool)
    (unpickle : String → Except String ModelPackage) :
    Except LoadError ModelPackage :=
  match possible_paths.find? exists_fs with
  | none => .error .fileNotFound
  | some model_path =>
      match unpickle model_path with
      | .error e => .error (.loadException e)
      | .ok model_package => .ok model_package

/-- A deserialized package with every required field absent. -/
def emptyPackage : ModelPackage := ⟨none, none, none⟩

/-- C5 counterexample: with the model file present and the unpickler
returning a package whose `feature_names`, `scaler` and `model` fields are
all absent, `load_model` succeeds and hands the package out, so loading
does not fail fast on a missing required field. -/
theorem load_model_no_field_validation :
    load_model (fun _ => true) (fun _ => .ok emptyPackage) = .ok emptyPackage
    ∧ emptyPackage.feature_names = none
    ∧ emptyPackage.scaler = none
    ∧ emptyPackage.model = none :=
  ⟨rfl, rfl, rfl, rfl⟩

/-- C5 (amended): `load_model` fails fast exactly when no model file exists
at any of the four known paths (file-not-found diagnostic) or when
deserialization raises (diagnostic carrying the exception text); a package
that deserializes is returned as-is, with no validation of its fields. -/
theorem load_model_failure_modes (exists_fs : String → Bool)
    (unpickle : String → Except String ModelPackage) :
    (possible_paths.find? exists_fs = none →
      load_model exists_fs unpickle = .error .fileNotFound)
    ∧ (∀ path e, possible_paths.find? exists_fs = some path →
        unpickle path = .error e →
        load_model exists_fs unpickle = .error (.loadException e))
    ∧ (∀ path pkg, possible_paths.find? exists_fs = some path →
        unpickle path = .ok pkg →
        load_model exists_fs unpickle = .ok pkg) := by
  refine ⟨?_, ?_, ?_⟩
  · intro h; simp [load_model, h]
  · intro path e hfind hun; simp [load_model, hfind, hun]
  · intro path pkg hfind hun; simp [load_model, hfind, hun]

/-- Witness for the amended C5: with an empty filesystem loading reports
file-not-found, and with a first-path unpickler failure it reports the
exception. -/
theorem load_model_failure_modes_witness :
    load_model (fun _ => false) (fun _ => .ok emptyPackage)
      = .error .fileNotFound
    ∧ load_model (fun _ => true) (fun _ => .error "bad magic number")
      = .error (.loadException "bad magic number") :=
  ⟨(load_model_failure_modes (fun _ => false) (fun _ => .ok emptyPackage)).1
      (by decide),
   (load_model_failure_modes (fun _ => true)
      (fun _ => .error "bad magic number")).2.1 "churn_model_final.pkl"
      "bad magic number" (by decide) rfl⟩

/-- Embedding of `preprocess_input` in full (source lines 161-175): align
the dict to the expected column order, then apply the scaler capability,
which may raise. -/
def preprocess_input (data : List (String × ℚ)) (feature_names : List String)
    (scaler : List ℚ → Except String (List ℚ)) : Except String (List ℚ) :=
  match align data feature_names with
  | none => .error "KeyError"
  | some df => scaler df

/-- Embedding of the prediction sequence of `main` (source lines 366-372):
preprocess, then `model.predict`, then `model.predict_proba`, taking churn
probability from index 1 and retain probability from index 0; any raising
step aborts the computation with its exception. -/
def classify (input_data : List (String × ℚ)) (feature_names : List String)
    (scaler : List ℚ → Except String (List ℚ))
    (predict : List ℚ → Except String ℤ)
    (predict_proba : List ℚ → Except String (ℚ × ℚ)) :
    Except String (ℤ × ℚ × ℚ) := do
  let processed_data ← preprocess_input input_data feature_names scaler
  let prediction ← predict processed_data
  let prediction_proba ← predict_proba processed_data
  pure (prediction, prediction_proba.2, prediction_proba.1)

/-- The dense vector the aligner hands to the scaler. -/
def aligned_vector (data : List (String × ℚ)) (feature_names : List String) :
    List ℚ :=
  feature_names.map (fun n => (lookupKey data n).getD 0)

/-- C6: when the scaler or a model invocation fails during classification,
`classify` fails with the underlying cause surfaced to the caller unchanged,
and in particular never returns a default prediction: a scaler exception, a
`predict` exception and a `predict_proba` exception each abort the whole
classification with exactly that error. -/
theorem classify_propagates_errors (input_data : List (String × ℚ))
    (feature_names : List String)
    (scaler : List ℚ → Except String (List ℚ))
    (predict : List ℚ → Except String ℤ)
    (predict_proba : List ℚ → Except String (ℚ × ℚ)) (e : String) :
    (scaler (aligned_vector input_data feature_names) = .error e →
      classify input_data feature_names scaler predict predict_proba
        = .error e)
    ∧ (∀ v, scaler (aligned_vector input_data feature_names) = .ok v →
        predict v = .error e →
        classify input_data feature_names scaler predict predict_proba
          = .error e)
    ∧ (∀ v lbl, scaler (aligned_vector input_data feature_names) = .ok v →
        predict v = .ok lbl → predict_proba v = .error e →
        classify input_data feature_names scaler predict predict_proba
          = .error e) := by
  have halign : align input_data feature_names
      = some (aligned_vector input_data feature_names) :=
    align_eq_some input_data feature_names
  refine ⟨?_, ?_, ?_⟩
  · intro hs
    simp [classify, preprocess_input, halign, hs, Bind.bind, Except.bind]
  · intro v hs hp
    simp [classify, preprocess_input, halign, hs, hp, Bind.bind, Except.bind]
  · intro v lbl hs hp hq
    simp [classify, preprocess_input, halign, hs, hp, hq, Bind.bind,
      Except.bind, Functor.map, Except.map]

/-- Witness for C6: a scaler that raises a shape-mismatch exception on the
default input aborts classification with exactly that exception. -/
theorem classify_propagates_errors_witness :
    classify defaultInput ["Customer_Service_Calls"]
      (fun _ => .error "X has 1 features, but StandardScaler is expecting 15")
      (fun _ => .ok 1) (fun _ => .ok (1/2, 1/2))
      = .error "X has 1 features, but StandardScaler is expecting 15" :=
  (classify_propagates_errors defaultInput ["Customer_Service_Calls"]
      (fun _ => .error "X has 1 features, but StandardScaler is expecting 15")
      (fun _ => .ok 1) (fun _ => .ok (1/2, 1/2))
      "X has 1 features, but StandardScaler is expecting 15").1 rfl
